import Mathlib

/-!
Shallow embedding of the kart-racing simulation core (src/game.js) together
with theorems settling the frozen claims about its specification.

Conventions of the embedding:
* JavaScript numbers are modelled as rationals; geometric raycast results
  (which depend on the Three.js scene) enter step functions as explicit
  inputs, as do the per-racer PRNG rolls.
* Comparisons of Euclidean distances against constant radii are carried out
  on squared distances, which is an exact reformulation over the rationals.
* Each definition mirrors one function (or a delimited part of one
  function) of src/game.js; the source lines are cited in the doc comments.
-/

namespace Karting

/-- Planar/3D vector over the rationals, mirroring THREE.Vector3. -/
structure Vec3 where
  x : ℚ
  y : ℚ
  z : ℚ
deriving DecidableEq, Repr

def Vec3.add (a b : Vec3) : Vec3 := ⟨a.x + b.x, a.y + b.y, a.z + b.z⟩

def Vec3.sub (a b : Vec3) : Vec3 := ⟨a.x - b.x, a.y - b.y, a.z - b.z⟩

def Vec3.smul (c : ℚ) (a : Vec3) : Vec3 := ⟨c * a.x, c * a.y, c * a.z⟩

def Vec3.dot (a b : Vec3) : ℚ := a.x * b.x + a.y * b.y + a.z * b.z

/-- Squared Euclidean norm. -/
def Vec3.normSq (a : Vec3) : ℚ := a.dot a

/-- THREE.Vector3.reflect: reflect off the plane orthogonal to a unit
normal n, computed as v - 2 (v . n) n. -/
def Vec3.reflect (v n : Vec3) : Vec3 := v.sub (Vec3.smul (2 * v.dot n) n)

/-- Squared distance between two points. -/
def distSq (a b : Vec3) : ℚ := (a.sub b).normSq

/-- The seven item kinds of the item economy (src/game.js giveItem). -/
inductive Item where
  | mushroom
  | banana
  | greenShell
  | redShell
  | fakeItemBox
  | boo
  | lightningBolt
deriving DecidableEq, Repr

/-- Identity of a racer: the player or the bot at a given index. -/
inductive RacerId where
  | player
  | bot (i : Nat)
deriving DecidableEq, Repr

/-- Effect-facing state of one racer: the fields read and written by the
item-hit functions and the item system of src/game.js (player fields
playerStunDuration etc. and the homonymous bot fields). -/
structure Racer where
  item : Option Item
  isInvisible : Bool
  invisibilityDuration : ℚ
  isAttemptingBooSteal : Bool
  stunDuration : ℚ
  speed : ℚ
  mushroomBoostDuration : ℚ
  boostTime : ℚ
  boosting : Bool
  isDrifting : Bool
  driftActive : Bool
  shrinkDuration : ℚ
  originalScale : ℚ
  scale : ℚ
deriving DecidableEq, Repr

/-- Default racer used for out-of-range list access. -/
def dfltRacer : Racer :=
  { item := none, isInvisible := false, invisibilityDuration := 0,
    isAttemptingBooSteal := false, stunDuration := 0, speed := 0,
    mushroomBoostDuration := 0, boostTime := 0, boosting := false,
    isDrifting := false, driftActive := false, shrinkDuration := 0,
    originalScale := 1, scale := 1 }

/-! Constants from the Game constructor (src/game.js lines 149-197). -/

def bananaStunTime : ℚ := 1
def mushroomBoostTime : ℚ := 2
def greenShellBounces : Int := 3
def greenShellLifetime : ℚ := 7
def greenShellStunTime : ℚ := 1
def redShellStunTime : ℚ := 6/5
def fakeItemBoxStunTime : ℚ := 1/2
def booDuration : ℚ := 5
def lightningShrinkDuration : ℚ := 4
def lightningShrinkScaleFactor : ℚ := 1/2
def lightningStunTime : ℚ := 4/5
def totalCheckpoints : Nat := 4
def maxLapsDefault : Nat := 7

/-- applyBananaHit (src/game.js lines 2118-2138): stun, cut speed to 30
percent, cancel boosts and drift; immune while invisible.  The player
branch additionally clears driftActive. -/
def applyBananaHit (isPlayer : Bool) (r : Racer) : Racer :=
  if r.isInvisible then r
  else
    { r with
      stunDuration := bananaStunTime,
      speed := r.speed * (3/10),
      mushroomBoostDuration := 0,
      boosting := false,
      isDrifting := false,
      driftActive := if isPlayer then false else r.driftActive }

/-- applyRedShellHit (src/game.js lines 2140-2162). -/
def applyRedShellHit (isPlayer : Bool) (r : Racer) : Racer :=
  if r.isInvisible then r
  else
    { r with
      stunDuration := redShellStunTime,
      speed := r.speed * (1/4),
      mushroomBoostDuration := 0,
      boosting := false,
      isDrifting := false,
      driftActive := if isPlayer then false else r.driftActive }

/-- applyGreenShellHit (src/game.js lines 2201-2221). -/
def applyGreenShellHit (isPlayer : Bool) (r : Racer) : Racer :=
  if r.isInvisible then r
  else
    { r with
      stunDuration := greenShellStunTime,
      speed := r.speed * (1/5),
      mushroomBoostDuration := 0,
      boosting := false,
      isDrifting := false,
      driftActive := if isPlayer then false else r.driftActive }

/-- applyFakeItemBoxHit (src/game.js lines 2419-2431). -/
def applyFakeItemBoxHit (r : Racer) : Racer :=
  if r.isInvisible then r
  else
    { r with
      stunDuration := fakeItemBoxStunTime,
      speed := r.speed * (7/10) }

/-- Effect of useLightningBolt on one non-firer racer (src/game.js lines
2575-2610): shrink, stun (max with current), 40 percent speed, scale cut,
held item lost; invisible racers are immune. -/
def applyLightningToRacer (r : Racer) : Racer :=
  if r.isInvisible then r
  else
    { r with
      shrinkDuration := lightningShrinkDuration,
      stunDuration := max r.stunDuration lightningStunTime,
      speed := r.speed * (2/5),
      scale := r.originalScale * lightningShrinkScaleFactor,
      item := none }

/-- Impulse magnitudes chosen by handleKartCollision (src/game.js lines
1802-1846): magA is added to racer A, magB (negated direction) to racer B. -/
def handleKartCollisionMags (aShrunk bShrunk : Bool) : ℚ × ℚ :=
  let base : ℚ := 12/100
  let magA := base
  let magB := base
  let magA := if aShrunk then magA * (7/10) else magA
  let magB := if aShrunk then magB * (13/10) else magB
  let magA := if bShrunk then magA * (13/10) else magA
  let magB := if bShrunk then magB * (7/10) else magB
  (magA, magB)

/-- handleKartCollision impulse update, given the normalized collision
normal n pointing from B to A (src/game.js lines 1822-1841): each impulse
accumulates, it does not replace. -/
def handleKartCollision (aShrunk bShrunk : Bool) (n impA impB : Vec3) :
    Vec3 × Vec3 :=
  let mags := handleKartCollisionMags aShrunk bShrunk
  (impA.add (Vec3.smul mags.1 n), impB.add (Vec3.smul (-mags.2) n))

/-- JavaScript style list indexing with an Int index: a negative or
out-of-range index yields undefined (none). -/
def jsIndex (l : List Item) (i : Int) : Option Item :=
  if i < 0 then none else l.get? i.toNat

/-- Item choice of giveItem (src/game.js lines 1999-2027), as a function of
the recomputed rank, the racer count, and the PRNG roll.  The final
mushroom default mirrors the falsy-chosenItem fallback. -/
def chooseItem (rank totalRacers : Nat) (roll : ℚ) : Item :=
  if rank = 1 then
    if roll < 80/100 then Item.banana else Item.greenShell
  else if rank = totalRacers then
    (jsIndex [Item.boo, Item.lightningBolt, Item.mushroom]
      ⌊roll * 3⌋).getD Item.mushroom
  else if rank > (totalRacers + 1) / 2 then
    (jsIndex [Item.mushroom, Item.boo, Item.fakeItemBox, Item.redShell]
      ⌊roll * 4⌋).getD Item.mushroom
  else
    (jsIndex [Item.mushroom, Item.fakeItemBox, Item.greenShell, Item.redShell]
      ⌊roll * 4⌋).getD Item.mushroom

/-- Slot update of giveItem (src/game.js lines 2030-2041): the chosen item
is stored only when the held-item slot is empty. -/
def giveItem (rank totalRacers : Nat) (roll : ℚ) (slot : Option Item) :
    Option Item :=
  match slot with
  | none => some (chooseItem rank totalRacers roll)
  | some it => some it

/-- Longitudinal speed update of updateKart for a non-stunned player
(src/game.js lines 1449-1457): forward intent accelerates clamped to the
current limit, backward decelerates clamped to minus half the limit, and
with neither intent the speed decays toward zero by one deceleration step,
snapping to zero when already within one step. -/
def updateKartSpeedStep (forward backward : Bool)
    (speed acceleration deceleration currentSpeedLimit : ℚ) : ℚ :=
  if forward then
    min (speed + acceleration) currentSpeedLimit
  else if backward then
    max (speed - acceleration) (-(currentSpeedLimit / 2))
  else
    if |speed| < deceleration then 0
    else
      speed - (if speed > 0 then (1:ℚ) else if speed < 0 then -1 else 0)
        * deceleration

/-- Active green shell projectile state (src/game.js lines 2192-2198). -/
structure GreenShell where
  pos : Vec3
  velocity : Vec3
  bouncesLeft : Int
  lifetime : ℚ
deriving DecidableEq, Repr

/-- Result of the wall raycast for one frame, as produced by the Three.js
raycaster: distance from the shell origin along the move direction, the
world-space unit surface normal, and the intersection point. -/
structure RayHit where
  dist : ℚ
  normal : Vec3
  point : Vec3
deriving DecidableEq, Repr

def shellRadius : ℚ := 3/5

/-- Per-shell movement, wall-bounce and expiry phase of updateGreenShells
(src/game.js lines 3145-3196).  moveDistance is the length of the
per-frame velocity (supplied, as the length is irrational in general);
hit is the first wall intersection, when any.  Returns none when the shell
is removed at the lifetime/bounce check. -/
def updateGreenShellStep (shell : GreenShell) (moveDistance : ℚ)
    (hit : Option RayHit) (deltaTime : ℚ) : Option GreenShell :=
  let moved :=
    if moveDistance > 0 then
      match hit with
      | some h =>
        if h.dist - shellRadius < moveDistance then
          { pos := (h.point.add (Vec3.smul (1/100) h.normal)),
            velocity := shell.velocity.reflect h.normal,
            bouncesLeft := shell.bouncesLeft - 1,
            lifetime := shell.lifetime - deltaTime }
        else
          { shell with pos := shell.pos.add shell.velocity,
                       lifetime := shell.lifetime - deltaTime }
      | none =>
        { shell with pos := shell.pos.add shell.velocity,
                     lifetime := shell.lifetime - deltaTime }
    else { shell with lifetime := shell.lifetime - deltaTime }
  if moved.lifetime ≤ 0 ∨ moved.bouncesLeft < 0 then none else some moved

/-! Checkpoint and lap tracking. -/

/-- Player race-progress state used by checkCheckpoints. -/
structure PlayerRace where
  lastCheckpoint : Int
  currentLap : Nat
  maxLaps : Nat
  raceFinished : Bool
  checkpointsPassed : Nat
deriving DecidableEq, Repr

/-- Outcome of the two geometric tests for one checkpoint in one frame:
whether the signed plane projection changed sign between the previous and
the current position, and whether the interpolated intersection lies
within the gate half-width. -/
structure CrossEvent where
  signChange : Bool
  withinGate : Bool
deriving DecidableEq, Repr

/-- State update applied on a valid player crossing of checkpoint i
(src/game.js lines 1585-1655). -/
def playerValidCross (st : PlayerRace) (i : Nat) : PlayerRace :=
  let completingLap := i = 3 ∧ st.lastCheckpoint = 2
  let st1 := { st with lastCheckpoint := (i : Int) }
  if completingLap then
    let lap := st.currentLap + 1
    { st1 with
      currentLap := lap,
      checkpointsPassed := 0,
      raceFinished := if lap > st.maxLaps then true else st1.raceFinished }
  else
    { st1 with checkpointsPassed := st.checkpointsPassed + 1 }

/-- Loop body of checkCheckpoints (src/game.js lines 1534-1663): scan the
indexed checkpoints; on the first in-gate plane crossing, process it (a
wrong-sequence gate crossing changes nothing) and break; a crossing
outside the gate is skipped and the scan continues. -/
def playerCheckLoop (st : PlayerRace) : List (Nat × CrossEvent) → PlayerRace
  | [] => st
  | (i, e) :: rest =>
    if e.signChange then
      if e.withinGate then
        if (i : Int) = (st.lastCheckpoint + 1) % (totalCheckpoints : Int) then
          playerValidCross st i
        else st
      else playerCheckLoop st rest
    else playerCheckLoop st rest

/-- checkCheckpoints (src/game.js lines 1530-1663), with the geometric test
outcomes for the four checkpoints supplied in index order. -/
def checkCheckpoints (st : PlayerRace) (evs : List CrossEvent) : PlayerRace :=
  if st.raceFinished then st else playerCheckLoop st evs.enum

/-- Bot race-progress state used by the checkpoint part of updateBots. -/
structure BotRace where
  currentCheckpointIndex : Nat
  targetCheckpointIndex : Nat
  lap : Nat
deriving DecidableEq, Repr

/-- Checkpoint-crossing part of updateBots (src/game.js lines 2916-2977):
scan the indexed checkpoints; only an in-gate crossing of the expected
target checkpoint updates the bot state (and breaks); everything else is
skipped. -/
def botCheckLoop (st : BotRace) : List (Nat × CrossEvent) → BotRace
  | [] => st
  | (i, e) :: rest =>
    if e.signChange ∧ e.withinGate ∧ i = st.targetCheckpointIndex then
      { currentCheckpointIndex := i,
        targetCheckpointIndex := (i + 1) % totalCheckpoints,
        lap := if i = 3 then st.lap + 1 else st.lap }
    else botCheckLoop st rest

/-- Bot checkpoint update for one frame, events in index order. -/
def botCheckCheckpoints (st : BotRace) (evs : List CrossEvent) : BotRace :=
  botCheckLoop st evs.enum

/-! Item-system world: the racers plus the hazard/projectile collections
touched by useItem and its per-item subroutines.  Positions, meshes and
scene handles are outside this state; ranking data (which the source
recomputes from positional data via getBotRankAndRacers) enters as an
explicit sorted racer list. -/

structure GameW where
  playerR : Racer
  bots : List Racer
  droppedBananas : List RacerId
  droppedFakeItemBoxes : List RacerId
  greenShellCount : Nat
  redShellTargets : List RacerId
deriving DecidableEq, Repr

def getRacer (w : GameW) : RacerId → Racer
  | RacerId.player => w.playerR
  | RacerId.bot i => w.bots.getD i dfltRacer

def setRacer (w : GameW) : RacerId → Racer → GameW
  | RacerId.player, r => { w with playerR := r }
  | RacerId.bot i, r => { w with bots := w.bots.set i r }

def setItemSlot (w : GameW) (id : RacerId) (it : Option Item) : GameW :=
  setRacer w id { getRacer w id with item := it }

/-- useBanana (src/game.js lines 2088-2103): drop a banana owned by the
user (drop geometry is scene-side). -/
def useBanana (w : GameW) (firer : RacerId) : GameW :=
  { w with droppedBananas := w.droppedBananas ++ [firer] }

/-- useMushroom (src/game.js lines 2105-2116). -/
def useMushroom (w : GameW) (firer : RacerId) : GameW :=
  let r := getRacer w firer
  setRacer w firer
    { r with mushroomBoostDuration := mushroomBoostTime,
             boosting := false, boostTime := 0 }

/-- useGreenShell (src/game.js lines 2165-2199): spawn one green shell
(fire direction and kinematics are handled by updateGreenShellStep). -/
def useGreenShell (w : GameW) (_firer : RacerId) : GameW :=
  { w with greenShellCount := w.greenShellCount + 1 }

/-- useFakeItemBox (src/game.js lines 2391-2417). -/
def useFakeItemBox (w : GameW) (firer : RacerId) : GameW :=
  { w with droppedFakeItemBoxes := w.droppedFakeItemBoxes ++ [firer] }

/-- useBoo (src/game.js lines 2434-2461): the user turns invisible for the
boo duration and a delayed steal is flagged; the boo item stays in the
slot. -/
def useBoo (w : GameW) (firer : RacerId) : GameW :=
  let r := getRacer w firer
  setRacer w firer
    { r with isInvisible := true,
             invisibilityDuration := booDuration,
             isAttemptingBooSteal := true }

/-- useLightningBolt (src/game.js lines 2575-2610): every racer other than
the firer takes the lightning effect (with invisibility immunity inside
applyLightningToRacer). -/
def useLightningBolt (w : GameW) (firer : RacerId) : GameW :=
  let playerR :=
    if firer = RacerId.player then w.playerR
    else applyLightningToRacer w.playerR
  let bots := w.bots.mapIdx (fun j r =>
    if firer = RacerId.bot j then r else applyLightningToRacer r)
  { w with playerR := playerR, bots := bots }

/-- Target search of useRedShell (src/game.js lines 2237-2247): scan the
racers ahead of the firer from the position directly ahead down to the
leader, and lock the first one that is not invisible. -/
def findTargetAhead (w : GameW) (sorted : List RacerId) (rank : Nat) :
    Option RacerId :=
  if rank > 1 then
    ((sorted.take (rank - 1)).reverse).find?
      (fun id => !(getRacer w id).isInvisible)
  else none

/-- useRedShell (src/game.js lines 2224-2284): resolve the firer rank from
the sorted racer list, search for a target ahead; with no target, give the
item back only if the slot is empty (the give-back path), otherwise spawn
a homing shell locked on the target. -/
def useRedShell (sorted : List RacerId) (w : GameW) (firer : RacerId) :
    GameW :=
  let rank :=
    match sorted.findIdx? (fun id => id == firer) with
    | some k => k + 1
    | none => 0
  match findTargetAhead w sorted rank with
  | none =>
    if (getRacer w firer).item = none then
      setItemSlot w firer (some Item.redShell)
    else w
  | some t => { w with redShellTargets := w.redShellTargets ++ [t] }

/-- useItem (src/game.js lines 2044-2086): dispatch on the held item, then
clear the slot — except for boo, which keeps its slot until the delayed
steal resolves. -/
def useItem (sorted : List RacerId) (w : GameW) (firer : RacerId) : GameW :=
  match (getRacer w firer).item with
  | none => w
  | some it =>
    let w1 :=
      match it with
      | Item.banana => useBanana w firer
      | Item.mushroom => useMushroom w firer
      | Item.greenShell => useGreenShell w firer
      | Item.redShell => useRedShell sorted w firer
      | Item.fakeItemBox => useFakeItemBox w firer
      | Item.boo => useBoo w firer
      | Item.lightningBolt => useLightningBolt w firer
    if it = Item.boo then w1 else setItemSlot w1 firer none

/-- Eligible steal victims among the bots: holding an item and not
invisible, optionally excluding the thief bot itself. -/
def eligibleBots (w : GameW) (excl : Option Nat) : List RacerId :=
  (w.bots.enum.filter (fun p =>
      (match excl with | some j => p.1 != j | none => true)
        && p.2.item.isSome && !p.2.isInvisible)).map
    (fun p => RacerId.bot p.1)

/-- Victim candidate list of stealItemWithBoo (src/game.js lines
2475-2482): a player thief targets the eligible bots; a bot thief targets
the player first (when eligible) and then the other eligible bots. -/
def booTargets (w : GameW) : RacerId → List RacerId
  | RacerId.player => eligibleBots w none
  | RacerId.bot j =>
    (if w.playerR.item.isSome && !w.playerR.isInvisible then
        [RacerId.player] else [])
      ++ eligibleBots w (some j)

/-- stealItemWithBoo (src/game.js lines 2463-2571): pick a victim with the
thief PRNG roll, move the victim item to the thief in one step; with no
candidate (or no item on the pick) the thief receives a mushroom instead.
Returns the updated world and whether an item was stolen. -/
def stealItemWithBoo (roll : ℚ) (w : GameW) (thief : RacerId) :
    GameW × Bool :=
  let targets := booTargets w thief
  let picked :=
    if targets.length > 0 then
      let victim := targets.getD (⌊roll * targets.length⌋).toNat
        RacerId.player
      match (getRacer w victim).item with
      | some it =>
        some (setItemSlot (setItemSlot w victim none) thief (some it))
      | none => none
    else none
  match picked with
  | some w1 => (w1, true)
  | none => (setItemSlot w thief (some Item.mushroom), false)

/-- Invisibility-expiry handling shared by updateKart (src/game.js lines
1183-1215) and updateBots (lines 2626-2655): tick the timer down; once it
expires, resolve the pending boo steal and restore visibility. -/
def booExpiryStep (roll deltaTime : ℚ) (w : GameW) (id : RacerId) : GameW :=
  let r := getRacer w id
  if r.isInvisible then
    let d := r.invisibilityDuration - deltaTime
    let w1 := setRacer w id { r with invisibilityDuration := d }
    if d ≤ 0 then
      let w2 :=
        if r.isAttemptingBooSteal then
          let res := stealItemWithBoo roll w1 id
          let ws :=
            if res.2 then
              setRacer res.1 id
                { getRacer res.1 id with invisibilityDuration := 0 }
            else res.1
          setRacer ws id { getRacer ws id with isAttemptingBooSteal := false }
        else w1
      setRacer w2 id { getRacer w2 id with isInvisible := false }
    else w1
  else w

/-! Banana contact checks. -/

/-- One bot with its world position. -/
structure BotK where
  pos : Vec3
  r : Racer
deriving DecidableEq, Repr

/-- World state read and written by checkBananaCollisions. -/
structure BnWorld where
  playerPos : Vec3
  playerR : Racer
  bots : List BotK
  droppedBananas : List (Vec3 × RacerId)
deriving DecidableEq, Repr

/-- Contact test of checkBananaCollisions: distance below kart radius 0.6
plus banana radius 0.3 — compared on squares. -/
def hitsBanana (p bpos : Vec3) : Prop :=
  distSq p bpos < 81/100

instance (p bpos : Vec3) : Decidable (hitsBanana p bpos) := by
  unfold hitsBanana
  infer_instance

/-- Bot scan for one banana (src/game.js lines 1749-1757): the first bot
that is not the owner of the banana and is in contact takes the hit and
the banana is spent. -/
def bananaBotScan (owner : RacerId) (bpos : Vec3) :
    Nat → List BotK → List BotK × Bool
  | _, [] => ([], false)
  | j, b :: rest =>
    if owner ≠ RacerId.bot j ∧ hitsBanana b.pos bpos then
      ({ b with r := applyBananaHit false b.r } :: rest, true)
    else
      let res := bananaBotScan owner bpos (j + 1) rest
      (b :: res.1, res.2)

/-- Loop body of checkBananaCollisions for one banana (src/game.js lines
1736-1758): the player is checked first, with no owner check (deliberate
self-hit), then the bots. Returns the updated world and whether the
banana was consumed. -/
def processBanana (w : BnWorld) (b : Vec3 × RacerId) : BnWorld × Bool :=
  if hitsBanana w.playerPos b.1 then
    ({ w with playerR := applyBananaHit true w.playerR }, true)
  else
    let res := bananaBotScan b.2 b.1 0 w.bots
    ({ w with bots := res.1 }, res.2)

/-- Iteration of checkBananaCollisions over the banana list, which the
source walks from the last index down to the first, splicing out consumed
bananas. -/
def runBananas (w : BnWorld) :
    List (Vec3 × RacerId) → BnWorld × List (Vec3 × RacerId)
  | [] => (w, [])
  | b :: rest =>
    let res := processBanana w b
    let rec2 := runBananas res.1 rest
    (rec2.1, if res.2 then rec2.2 else b :: rec2.2)

/-- checkBananaCollisions (src/game.js lines 1732-1759). -/
def checkBananaCollisions (w : BnWorld) : BnWorld :=
  let res := runBananas { w with droppedBananas := [] }
    w.droppedBananas.reverse
  { res.1 with droppedBananas := res.2.reverse }

/-! Concrete worlds used by counterexamples and witnesses. -/

/-- Default bot entry for out-of-range list access. -/
def dfltBotK : BotK := { pos := ⟨0, 0, 0⟩, r := dfltRacer }

/-- Player ranked first and holding a red shell; one bot behind. -/
def c1World : GameW :=
  { playerR := { dfltRacer with item := some Item.redShell },
    bots := [dfltRacer],
    droppedBananas := [], droppedFakeItemBoxes := [],
    greenShellCount := 0, redShellTargets := [] }

/-- Player ranked second and holding a red shell; the sole racer ahead is
invisible. -/
def c1WorldInvisibleLeader : GameW :=
  { playerR := { dfltRacer with item := some Item.redShell },
    bots := [{ dfltRacer with isInvisible := true }],
    droppedBananas := [], droppedFakeItemBoxes := [],
    greenShellCount := 0, redShellTargets := [] }

/-- A bot standing exactly on a banana that it dropped itself; the player
is far away. -/
def c3World : BnWorld :=
  { playerPos := ⟨100, 0, 0⟩,
    playerR := dfltRacer,
    bots := [{ pos := ⟨0, 0, 0⟩, r := { dfltRacer with speed := 1 } }],
    droppedBananas := [(⟨0, 0, 0⟩, RacerId.bot 0)] }

/-- Player holding boo; one eligible victim bot holding a mushroom. -/
def c8World : GameW :=
  { playerR := { dfltRacer with item := some Item.boo },
    bots := [{ dfltRacer with item := some Item.mushroom }],
    droppedBananas := [], droppedFakeItemBoxes := [],
    greenShellCount := 0, redShellTargets := [] }

/-- An invisible racer carrying speed, boost and an item. -/
def ghostRacer : Racer :=
  { dfltRacer with
    isInvisible := true, speed := 2,
    item := some Item.banana, mushroomBoostDuration := 1,
    boosting := true, isDrifting := true, driftActive := true }

/-- C1.  The claim states that a red shell used with no valid target ends
with the red shell back in the held-item slot and no projectile spawned.
The source gives the item back inside useRedShell only when the slot is
already empty, but useItem clears the slot only after useRedShell
returns, so the give-back test always sees the still-occupied slot and
does nothing; the slot is then cleared.  Evaluating the embedded code on
both no-target inputs (firer ranked first; sole racer ahead invisible)
shows the item is destroyed: the slot ends empty and no shell spawns. -/
theorem redShell_noTarget_destroys_item :
    (useItem [RacerId.player, RacerId.bot 0] c1World
        RacerId.player).playerR.item = none ∧
    (useItem [RacerId.player, RacerId.bot 0] c1World
        RacerId.player).redShellTargets = [] ∧
    (useItem [RacerId.bot 0, RacerId.player] c1WorldInvisibleLeader
        RacerId.player).playerR.item = none ∧
    (useItem [RacerId.bot 0, RacerId.player] c1WorldInvisibleLeader
        RacerId.player).redShellTargets = [] := by
  decide

/-- C2.  The claim (and the comments inside handleKartCollision) state
that a shrunk racer receives the proportionally larger impulse and
imparts the smaller one.  The code does the opposite: with racer A shrunk
and racer B not, A receives magnitude 0.12 x 0.7 = 0.084 and B receives
0.12 x 1.3 = 0.156, as this evaluation of the embedded collision handler
shows (also in full vector form on a unit normal). -/
theorem shrunk_bump_impulse_swapped :
    handleKartCollisionMags true false = (21/250, 39/250) ∧
    (handleKartCollisionMags true false).1 < 12/100 ∧
    12/100 < (handleKartCollisionMags true false).2 ∧
    handleKartCollision true false ⟨1, 0, 0⟩ ⟨0, 0, 0⟩ ⟨0, 0, 0⟩ =
      (⟨21/250, 0, 0⟩, ⟨-(39/250), 0, 0⟩) := by
  norm_num [handleKartCollisionMags, handleKartCollision, Vec3.add,
    Vec3.smul, Prod.ext_iff, Vec3.mk.injEq]

/-- C3 counterexample.  A bot in contact with a banana it dropped itself,
not invisible, is left completely unchanged by checkBananaCollisions (the
banana survives too): the source excludes the owner in the bot loop, so
the claim that every racer including the dropper is stunned is false. -/
theorem banana_bot_owner_not_hit :
    hitsBanana (⟨0, 0, 0⟩ : Vec3) (⟨0, 0, 0⟩ : Vec3) ∧
    (c3World.bots.getD 0 dfltBotK).r.isInvisible = false ∧
    checkBananaCollisions c3World = c3World ∧
    ((checkBananaCollisions c3World).bots.getD 0 dfltBotK).r.stunDuration
      = 0 ∧
    ((checkBananaCollisions c3World).bots.getD 0 dfltBotK).r.speed = 1 := by
  refine ⟨by norm_num [hitsBanana, distSq, Vec3.normSq, Vec3.sub, Vec3.dot],
    by norm_num [c3World, dfltRacer, dfltBotK], ?_, ?_, ?_⟩ <;>
    norm_num [checkBananaCollisions, runBananas, processBanana,
      bananaBotScan, hitsBanana, distSq, Vec3.normSq, Vec3.sub, Vec3.dot,
      c3World, dfltRacer, dfltBotK]

/-- C5.  Invisibility immunity: every hazard/projectile hit function of
the source leaves an invisible racer completely unchanged — no stun, no
speed change, no item loss. -/
theorem invisibility_immunity (p : Bool) (r : Racer)
    (h : r.isInvisible = true) :
    applyBananaHit p r = r ∧ applyGreenShellHit p r = r ∧
    applyRedShellHit p r = r ∧ applyFakeItemBoxHit r = r ∧
    applyLightningToRacer r = r := by
  simp [applyBananaHit, applyGreenShellHit, applyRedShellHit,
    applyFakeItemBoxHit, applyLightningToRacer, h]

/-- Witness for C5 at a concrete invisible racer. -/
theorem invisibility_immunity_witness :
    applyBananaHit true ghostRacer = ghostRacer ∧
    applyGreenShellHit true ghostRacer = ghostRacer ∧
    applyRedShellHit true ghostRacer = ghostRacer ∧
    applyFakeItemBoxHit ghostRacer = ghostRacer ∧
    applyLightningToRacer ghostRacer = ghostRacer :=
  invisibility_immunity true ghostRacer (by decide)

/-- C6.  Rank-1 item grant: the chosen item is a banana exactly when the
roll is below 0.80 and a green shell otherwise; no other item kind is
possible at rank 1. -/
theorem rank1_item_distribution (totalRacers : Nat) (roll : ℚ) :
    (chooseItem 1 totalRacers roll = Item.banana ↔ roll < 80/100) ∧
    (chooseItem 1 totalRacers roll = Item.banana ∨
      chooseItem 1 totalRacers roll = Item.greenShell) := by
  unfold chooseItem
  by_cases h : roll < 80/100 <;> simp [h]

/-- C7.  Item slot exclusivity: a grant with an occupied held-item slot
leaves the slot unchanged; a racer receives the chosen item exactly when
the slot was empty before the pickup. -/
theorem item_slot_exclusivity (rank totalRacers : Nat) (roll : ℚ)
    (slot : Option Item) :
    (slot ≠ none → giveItem rank totalRacers roll slot = slot) ∧
    (slot = none →
      giveItem rank totalRacers roll slot
        = some (chooseItem rank totalRacers roll)) := by
  cases slot <;> simp [giveItem]

/-- Witness for C7 at concrete slots. -/
theorem item_slot_exclusivity_witness :
    giveItem 2 4 (1/2) (some Item.banana) = some Item.banana ∧
    giveItem 1 4 0 none = some (chooseItem 1 4 0) :=
  ⟨(item_slot_exclusivity 2 4 (1/2) (some Item.banana)).1 (by decide),
   (item_slot_exclusivity 1 4 0 none).2 rfl⟩

/-- C8 counterexample.  At the moment boo is used the thief does turn
invisible with the steal pending, but the eligible victim still holds its
item: the steal only resolves when invisibility ends, so the claim that
the victim loses the item immediately at use time is false. -/
theorem boo_victim_keeps_item_at_use :
    (useItem [RacerId.player, RacerId.bot 0] c8World
        RacerId.player).playerR.isInvisible = true ∧
    (useItem [RacerId.player, RacerId.bot 0] c8World
        RacerId.player).playerR.isAttemptingBooSteal = true ∧
    ((useItem [RacerId.player, RacerId.bot 0] c8World
        RacerId.player).bots.getD 0 dfltRacer).item = some Item.mushroom := by
  decide

/-- Reflection about a unit normal preserves the squared magnitude. -/
lemma normSq_reflect (v n : Vec3) (hn : n.normSq = 1) :
    (v.reflect n).normSq = v.normSq := by
  have h : (v.reflect n).normSq
      = v.normSq + 4 * (v.dot n) ^ 2 * (n.normSq - 1) := by
    simp only [Vec3.reflect, Vec3.sub, Vec3.smul, Vec3.dot, Vec3.normSq]
    ring
  rw [h, hn]
  ring

/-- C9.  A green shell whose raycast reaches a wall within the frame
travel distance reflects its velocity about the unit wall normal with
squared magnitude preserved (no dampening) and has its bounce counter
decremented by exactly 1; within this update the shell is removed exactly
when the decremented bounce budget is negative or the decremented
lifetime has expired. -/
theorem green_shell_wall_bounce (shell : GreenShell)
    (moveDistance deltaTime : ℚ) (h : RayHit)
    (hn : h.normal.normSq = 1) (hmove : 0 < moveDistance)
    (hhit : h.dist - shellRadius < moveDistance) :
    (∀ s, updateGreenShellStep shell moveDistance (some h) deltaTime
        = some s →
      s.velocity = shell.velocity.reflect h.normal ∧
      s.velocity.normSq = shell.velocity.normSq ∧
      s.bouncesLeft = shell.bouncesLeft - 1 ∧
      s.lifetime = shell.lifetime - deltaTime) ∧
    (updateGreenShellStep shell moveDistance (some h) deltaTime = none ↔
      shell.lifetime - deltaTime ≤ 0 ∨ shell.bouncesLeft - 1 < 0) := by
  simp only [updateGreenShellStep, gt_iff_lt, hmove, hhit, if_true,
    ite_true]
  by_cases hc : shell.lifetime - deltaTime ≤ 0 ∨ shell.bouncesLeft - 1 < 0
  · rw [if_pos hc]
    constructor
    · intro s hs
      exact absurd hs (by simp)
    · simpa using hc
  · rw [if_neg hc]
    constructor
    · intro s hs
      have hs' := (Option.some_inj.mp hs).symm
      subst hs'
      exact ⟨rfl, normSq_reflect _ _ hn, rfl, rfl⟩
    · simpa using hc

/-- Green shell of the spec scenario: 3 bounces left, 7.0 s lifetime. -/
def shellW : GreenShell :=
  { pos := ⟨0, 0, 0⟩, velocity := ⟨0, 0, 3/4⟩,
    bouncesLeft := greenShellBounces, lifetime := greenShellLifetime }

/-- Perpendicular flat wall one unit ahead of the scenario shell. -/
def rayW : RayHit :=
  { dist := 1, normal := ⟨0, 0, -1⟩, point := ⟨0, 0, 1⟩ }

/-- Witness for C9 on the spec scenario inputs. -/
theorem green_shell_wall_bounce_witness :
    (∀ s, updateGreenShellStep shellW (3/4) (some rayW) (1/60) = some s →
      s.velocity = shellW.velocity.reflect rayW.normal ∧
      s.velocity.normSq = shellW.velocity.normSq ∧
      s.bouncesLeft = shellW.bouncesLeft - 1 ∧
      s.lifetime = shellW.lifetime - 1/60) ∧
    (updateGreenShellStep shellW (3/4) (some rayW) (1/60) = none ↔
      shellW.lifetime - 1/60 ≤ 0 ∨ shellW.bouncesLeft - 1 < 0) :=
  green_shell_wall_bounce shellW (3/4) (1/60) rayW
    (by norm_num [rayW, Vec3.normSq, Vec3.dot]) (by norm_num)
    (by norm_num [rayW, shellRadius])

/-- C10.  Longitudinal control of a non-stunned player: forward intent
accelerates with the result clamped to the current speed limit, backward
decelerates clamped to minus half the limit, and with neither intent the
speed is snapped to zero when within one deceleration step and otherwise
moves one deceleration step toward zero with its sign preserved. -/
theorem longitudinal_speed_update (forward backward : Bool)
    (speed a d L : ℚ) (hd : 0 < d) :
    (forward = true →
      updateKartSpeedStep forward backward speed a d L = min (speed + a) L
        ∧ updateKartSpeedStep forward backward speed a d L ≤ L) ∧
    (forward = false → backward = true →
      updateKartSpeedStep forward backward speed a d L
          = max (speed - a) (-(L / 2))
        ∧ -(L / 2) ≤ updateKartSpeedStep forward backward speed a d L) ∧
    (forward = false → backward = false →
      (|speed| ≤ d → updateKartSpeedStep forward backward speed a d L = 0) ∧
      (d < |speed| →
        |updateKartSpeedStep forward backward speed a d L| = |speed| - d ∧
        (0 < speed → 0 < updateKartSpeedStep forward backward speed a d L) ∧
        (speed < 0 → updateKartSpeedStep forward backward speed a d L < 0)))
    := by
  refine ⟨?_, ?_, ?_⟩
  · intro hf
    subst hf
    unfold updateKartSpeedStep
    exact ⟨by simp, by simp [min_le_right]⟩
  · intro hf hb
    subst hf
    subst hb
    unfold updateKartSpeedStep
    exact ⟨by simp, by simp [le_max_right]⟩
  · intro hf hb
    subst hf
    subst hb
    unfold updateKartSpeedStep
    simp only [Bool.false_eq_true, if_false]
    constructor
    · intro hle
      by_cases hlt : |speed| < d
      · rw [if_pos hlt]
      · have heq : |speed| = d := le_antisymm hle (not_lt.mp hlt)
        rw [if_neg hlt]
        rcases lt_trichotomy speed 0 with hs | hs | hs
        · rw [abs_of_neg hs] at heq
          rw [if_neg (by linarith : ¬ speed > 0), if_pos hs]
          linarith
        · rw [hs, abs_zero] at heq
          exact absurd heq.symm (ne_of_gt hd)
        · rw [abs_of_pos hs] at heq
          rw [if_pos hs]
          linarith
    · intro hgt
      have hne : ¬ |speed| < d := not_lt.mpr (le_of_lt hgt)
      rw [if_neg hne]
      rcases lt_trichotomy speed 0 with hs | hs | hs
      · rw [abs_of_neg hs] at hgt
        rw [if_neg (by linarith : ¬ speed > 0), if_pos hs]
        have hlt0 : speed - (-1) * d < 0 := by linarith
        refine ⟨?_, by intro hc; linarith, fun _ => hlt0⟩
        rw [abs_of_neg hlt0, abs_of_neg hs]
        ring
      · rw [hs, abs_zero] at hgt
        exact absurd hgt (by linarith)
      · rw [abs_of_pos hs] at hgt
        rw [if_pos hs]
        have hgt0 : 0 < speed - 1 * d := by linarith
        refine ⟨?_, fun _ => hgt0, by intro hc; linarith⟩
        rw [abs_of_pos hgt0, abs_of_pos hs]
        ring

/-- Witness for C10 on concrete intents and speeds. -/
theorem longitudinal_speed_update_witness :
    updateKartSpeedStep true false 0 1 1 10 = min (0 + 1) 10 ∧
    updateKartSpeedStep false true 0 1 1 10 = max (0 - 1) (-(10 / 2)) ∧
    updateKartSpeedStep false false (1/2) 1 1 10 = 0 ∧
    |updateKartSpeedStep false false 3 1 1 10| = |(3 : ℚ)| - 1 :=
  ⟨((longitudinal_speed_update true false 0 1 1 10 (by norm_num)).1 rfl).1,
   (((longitudinal_speed_update false true 0 1 1 10
      (by norm_num)).2.1) rfl rfl).1,
   (((longitudinal_speed_update false false (1/2) 1 1 10
      (by norm_num)).2.2) rfl rfl).1
     (abs_le.mpr (by constructor <;> norm_num)),
   ((((longitudinal_speed_update false false 3 1 1 10
      (by norm_num)).2.2) rfl rfl).2
     (lt_abs.mpr (Or.inl (by norm_num)))).1⟩

/-! Characterization of the checkpoint loops. -/

/-- Index of the first in-gate plane crossing in the scanned event list,
which is where the player loop breaks. -/
def firstGateHit : List (Nat × CrossEvent) → Option Nat
  | [] => none
  | (i, e) :: rest =>
    if e.signChange then
      if e.withinGate then some i else firstGateHit rest
    else firstGateHit rest

lemma playerCheckLoop_eq (l : List (Nat × CrossEvent)) (st : PlayerRace) :
    playerCheckLoop st l =
      match firstGateHit l with
      | none => st
      | some i =>
        if (i : Int) = (st.lastCheckpoint + 1) % (totalCheckpoints : Int)
        then playerValidCross st i else st := by
  induction l with
  | nil => rfl
  | cons p rest ih =>
    obtain ⟨i, e⟩ := p
    by_cases hs : e.signChange = true <;> by_cases hw : e.withinGate = true
      <;> simp [playerCheckLoop, firstGateHit, hs, hw, ih]

lemma playerCheckLoop_none (l : List (Nat × CrossEvent)) (st : PlayerRace)
    (h : firstGateHit l = none) : playerCheckLoop st l = st := by
  rw [playerCheckLoop_eq, h]

lemma playerCheckLoop_some (l : List (Nat × CrossEvent)) (st : PlayerRace)
    (i : Nat) (h : firstGateHit l = some i) :
    playerCheckLoop st l =
      if (i : Int) = (st.lastCheckpoint + 1) % (totalCheckpoints : Int)
      then playerValidCross st i else st := by
  rw [playerCheckLoop_eq, h]

lemma playerValidCross_last (st : PlayerRace) (i : Nat) :
    (playerValidCross st i).lastCheckpoint = (i : Int) := by
  unfold playerValidCross
  by_cases h : i = 3 ∧ st.lastCheckpoint = 2 <;> simp [h]

lemma playerValidCross_lap (st : PlayerRace) (i : Nat) :
    (playerValidCross st i).currentLap =
      if i = 3 ∧ st.lastCheckpoint = 2 then st.currentLap + 1
      else st.currentLap := by
  unfold playerValidCross
  by_cases h : i = 3 ∧ st.lastCheckpoint = 2 <;> simp [h]

/-- Either nothing happens in a frame, or the first in-gate crossing is
the expected next checkpoint and the valid-cross update is applied. -/
lemma checkCheckpoints_cases (st : PlayerRace) (evs : List CrossEvent) :
    checkCheckpoints st evs = st ∨
    (st.raceFinished = false ∧ ∃ i, firstGateHit evs.enum = some i ∧
      (i : Int) = (st.lastCheckpoint + 1) % (totalCheckpoints : Int) ∧
      checkCheckpoints st evs = playerValidCross st i) := by
  unfold checkCheckpoints
  by_cases hf : st.raceFinished
  · left
    rw [if_pos hf]
  · rw [if_neg hf]
    rcases hhit : firstGateHit evs.enum with _ | i
    · left
      exact playerCheckLoop_none _ _ hhit
    · by_cases hexp :
        (i : Int) = (st.lastCheckpoint + 1) % (totalCheckpoints : Int)
      · right
        refine ⟨by simpa using hf, i, rfl, hexp, ?_⟩
        rw [playerCheckLoop_some _ _ _ hhit, if_pos hexp]
      · left
        rw [playerCheckLoop_some _ _ _ hhit, if_neg hexp]

lemma player_lap_mono (st : PlayerRace) (evs : List CrossEvent) :
    st.currentLap ≤ (checkCheckpoints st evs).currentLap := by
  rcases checkCheckpoints_cases st evs with h | ⟨_, i, _, _, h⟩
  · rw [h]
  · rw [h, playerValidCross_lap]
    by_cases hc : i = 3 ∧ st.lastCheckpoint = 2 <;> simp [hc]

lemma player_fold_lap_mono (trace : List (List CrossEvent))
    (st : PlayerRace) :
    st.currentLap ≤ (trace.foldl checkCheckpoints st).currentLap := by
  induction trace generalizing st with
  | nil => exact le_refl _
  | cons e t ih =>
    exact le_trans (player_lap_mono st e) (ih (checkCheckpoints st e))

/-- State update applied on a valid bot crossing of its target checkpoint
(src/game.js lines 2962-2971). -/
def botApply (st : BotRace) : BotRace :=
  { currentCheckpointIndex := st.targetCheckpointIndex,
    targetCheckpointIndex := (st.targetCheckpointIndex + 1) % totalCheckpoints,
    lap := if st.targetCheckpointIndex = 3 then st.lap + 1 else st.lap }

/-- Some scanned event is an in-gate crossing of the bot target gate. -/
def gateTrigger (st : BotRace) (l : List (Nat × CrossEvent)) : Prop :=
  ∃ p ∈ l, p.2.signChange = true ∧ p.2.withinGate = true ∧
    p.1 = st.targetCheckpointIndex

instance (st : BotRace) (l : List (Nat × CrossEvent)) :
    Decidable (gateTrigger st l) := by
  unfold gateTrigger
  infer_instance

lemma botCheckLoop_eq (l : List (Nat × CrossEvent)) (st : BotRace) :
    botCheckLoop st l = if gateTrigger st l then botApply st else st := by
  induction l with
  | nil => simp [botCheckLoop, gateTrigger]
  | cons p rest ih =>
    obtain ⟨i, e⟩ := p
    by_cases hh : e.signChange = true ∧ e.withinGate = true ∧
        i = st.targetCheckpointIndex
    · have ht : gateTrigger st ((i, e) :: rest) :=
        ⟨(i, e), List.mem_cons_self _ _, hh.1, hh.2.1, hh.2.2⟩
      rw [if_pos ht]
      unfold botCheckLoop
      rw [if_pos (by exact ⟨hh.1, hh.2.1, hh.2.2⟩)]
      unfold botApply
      rw [hh.2.2]
    · have ht : gateTrigger st ((i, e) :: rest) ↔ gateTrigger st rest := by
        unfold gateTrigger
        simp only [List.mem_cons]
        constructor
        · rintro ⟨q, hq | hq, h1, h2, h3⟩
          · exact absurd (by rw [hq] at h1 h2 h3; exact ⟨h1, h2, h3⟩) hh
          · exact ⟨q, hq, h1, h2, h3⟩
        · rintro ⟨q, hq, h1, h2, h3⟩
          exact ⟨q, Or.inr hq, h1, h2, h3⟩
      unfold botCheckLoop
      rw [if_neg hh, ih]
      by_cases hrest : gateTrigger st rest
      · rw [if_pos hrest, if_pos (ht.mpr hrest)]
      · rw [if_neg hrest, if_neg (fun hc => hrest (ht.mp hc))]

lemma bot_lap_mono (st : BotRace) (evs : List CrossEvent) :
    st.lap ≤ (botCheckCheckpoints st evs).lap := by
  unfold botCheckCheckpoints
  rw [botCheckLoop_eq]
  by_cases ht : gateTrigger st evs.enum
  · rw [if_pos ht]
    unfold botApply
    by_cases h3 : st.targetCheckpointIndex = 3 <;> simp [h3]
  · rw [if_neg ht]

lemma bot_fold_lap_mono (trace : List (List CrossEvent)) (st : BotRace) :
    st.lap ≤ (trace.foldl botCheckCheckpoints st).lap := by
  induction trace generalizing st with
  | nil => exact le_refl _
  | cons e t ih =>
    exact le_trans (bot_lap_mono st e) (ih (botCheckCheckpoints st e))

/-- C4.  Checkpoint ordering and lap monotonicity, for the player and for
bots: the last-crossed checkpoint index only ever advances to the next
index in the cyclic order 0-1-2-3-0 (otherwise it is unchanged), the lap
counter is non-decreasing over any simulated trace, and it increments by
exactly 1 precisely on a valid crossing of the start/finish checkpoint
(index 3) whose predecessor was checkpoint 2. -/
theorem checkpoint_order_and_lap
    (st : PlayerRace) (evs : List CrossEvent)
    (bst : BotRace) (bevs : List CrossEvent)
    (trace btrace : List (List CrossEvent))
    (hb1 : bst.targetCheckpointIndex
      = (bst.currentCheckpointIndex + 1) % totalCheckpoints)
    (hb2 : bst.currentCheckpointIndex < totalCheckpoints) :
    (((checkCheckpoints st evs).lastCheckpoint = st.lastCheckpoint ∨
      (checkCheckpoints st evs).lastCheckpoint
        = (st.lastCheckpoint + 1) % (totalCheckpoints : Int)) ∧
     st.currentLap ≤ (checkCheckpoints st evs).currentLap ∧
     ((checkCheckpoints st evs).currentLap = st.currentLap ∨
      (checkCheckpoints st evs).currentLap = st.currentLap + 1) ∧
     ((checkCheckpoints st evs).currentLap = st.currentLap + 1 ↔
       (st.raceFinished = false ∧ st.lastCheckpoint = 2 ∧
        (checkCheckpoints st evs).lastCheckpoint = 3))) ∧
    (((botCheckCheckpoints bst bevs).currentCheckpointIndex
        = bst.currentCheckpointIndex ∨
      (botCheckCheckpoints bst bevs).currentCheckpointIndex
        = (bst.currentCheckpointIndex + 1) % totalCheckpoints) ∧
     (botCheckCheckpoints bst bevs).targetCheckpointIndex
       = ((botCheckCheckpoints bst bevs).currentCheckpointIndex + 1)
           % totalCheckpoints ∧
     (botCheckCheckpoints bst bevs).currentCheckpointIndex
       < totalCheckpoints ∧
     bst.lap ≤ (botCheckCheckpoints bst bevs).lap ∧
     ((botCheckCheckpoints bst bevs).lap = bst.lap + 1 ↔
       (bst.currentCheckpointIndex = 2 ∧
        (botCheckCheckpoints bst bevs).currentCheckpointIndex = 3))) ∧
    st.currentLap ≤ (trace.foldl checkCheckpoints st).currentLap ∧
    bst.lap ≤ (btrace.foldl botCheckCheckpoints bst).lap := by
  refine ⟨?_, ?_, player_fold_lap_mono trace st, bot_fold_lap_mono btrace bst⟩
  · rcases checkCheckpoints_cases st evs with h | ⟨hf, i, _, hexp, h⟩
    · rw [h]
      refine ⟨Or.inl rfl, le_refl _, Or.inl rfl, ?_⟩
      constructor
      · intro hc
        exact absurd hc (by omega)
      · rintro ⟨_, h2, h3⟩
        rw [h2] at h3
        exact absurd h3 (by norm_num)
    · rw [h, playerValidCross_last, playerValidCross_lap]
      refine ⟨Or.inr hexp, ?_, ?_, ?_⟩
      · by_cases hc : i = 3 ∧ st.lastCheckpoint = 2 <;> simp [hc]
      · by_cases hc : i = 3 ∧ st.lastCheckpoint = 2 <;> simp [hc]
      · constructor
        · intro hc
          by_cases hcond : i = 3 ∧ st.lastCheckpoint = 2
          · exact ⟨hf, hcond.2, by rw [hcond.1]; norm_num⟩
          · rw [if_neg hcond] at hc
            exact absurd hc (by omega)
        · rintro ⟨_, h2, h3⟩
          have hi : i = 3 := by exact_mod_cast h3
          rw [if_pos ⟨hi, h2⟩]
  · unfold botCheckCheckpoints
    rw [botCheckLoop_eq]
    by_cases ht : gateTrigger bst bevs.enum
    · rw [if_pos ht]
      unfold botApply
      have htgt : bst.targetCheckpointIndex = 3 ↔
          bst.currentCheckpointIndex = 2 := by
        rw [hb1]
        unfold totalCheckpoints at hb2 ⊢
        omega
      refine ⟨Or.inr hb1, rfl, ?_, ?_, ?_⟩
      · rw [hb1]
        exact Nat.mod_lt _ (by norm_num [totalCheckpoints])
      · by_cases h3 : bst.targetCheckpointIndex = 3 <;> simp [h3]
      · by_cases h3 : bst.targetCheckpointIndex = 3
        · simp only [h3, if_pos rfl]
          simp [htgt.mp h3, h3]
        · rw [if_neg h3]
          simp only [h3]
          constructor
          · intro hc
            exact absurd hc (by omega)
          · rintro ⟨h2, h3'⟩
            exact h3'.elim
    · rw [if_neg ht]
      refine ⟨Or.inl rfl, hb1, hb2, le_refl _, ?_⟩
      constructor
      · intro hc
        exact absurd hc (by omega)
      · rintro ⟨h2, h3⟩
        rw [h2] at h3
        exact absurd h3 (by norm_num)

/-- Player race state two checkpoints into a lap, about to finish. -/
def pRace0 : PlayerRace :=
  { lastCheckpoint := 2, currentLap := 1, maxLaps := maxLapsDefault,
    raceFinished := false, checkpointsPassed := 3 }

/-- Bot race state expecting the start/finish gate next. -/
def bRace0 : BotRace :=
  { currentCheckpointIndex := 2, targetCheckpointIndex := 3, lap := 1 }

/-- Frame events: an in-gate crossing of checkpoint 3 only. -/
def cross3 : List CrossEvent :=
  [⟨false, false⟩, ⟨false, false⟩, ⟨false, false⟩, ⟨true, true⟩]

/-- Witness for C4: the lap-increment characterization at a concrete
crossing of the finish line after checkpoint 2. -/
theorem checkpoint_order_and_lap_witness :
    (checkCheckpoints pRace0 cross3).currentLap = pRace0.currentLap + 1 ↔
      (pRace0.raceFinished = false ∧ pRace0.lastCheckpoint = 2 ∧
        (checkCheckpoints pRace0 cross3).lastCheckpoint = 3) :=
  (checkpoint_order_and_lap pRace0 cross3 bRace0 cross3 [] []
    (by decide) (by decide)).1.2.2.2

/-- The bot scan never touches the bot that owns the banana: the entry at
absolute index k + m is returned unchanged when the owner is bot k + m. -/
lemma bananaBotScan_owner_get (bpos : Vec3) :
    ∀ (bots : List BotK) (k m : Nat),
      ((bananaBotScan (RacerId.bot (k + m)) bpos k bots).1)[m]?
        = bots[m]? := by
  intro bots
  induction bots with
  | nil => intro k m; rfl
  | cons b rest ih =>
    intro k m
    unfold bananaBotScan
    by_cases hc : RacerId.bot (k + m) ≠ RacerId.bot k ∧ hitsBanana b.pos bpos
    · rw [if_pos hc]
      have hm : m ≠ 0 := by
        intro h0
        exact hc.1 (by rw [h0, Nat.add_zero])
      obtain ⟨m', rfl⟩ := Nat.exists_eq_succ_of_ne_zero hm
      simp only [List.getElem?_cons_succ]
    · rw [if_neg hc]
      cases m with
      | zero => simp
      | succ m' =>
        simp only [List.getElem?_cons_succ]
        have hkm : k + (m' + 1) = (k + 1) + m' := by omega
        rw [hkm]
        exact ih (k + 1) m'

/-- C3 amended.  Banana contact rules as the code implements them: any
racer touching a dropped banana is stunned for 1.0 s with speed cut to 30
percent unless invisible, and the player is hit by any banana including
their own; the one exception to the claim is that a bot is never hit by
the banana it dropped itself. -/
theorem banana_contact_rules (w : BnWorld) (b : Vec3 × RacerId) (p : Bool)
    (r : Racer) (owner : RacerId) (bpos : Vec3) (k j : Nat) (bk : BotK)
    (rest : List BotK) :
    (hitsBanana w.playerPos b.1 →
      (processBanana w b).1.playerR = applyBananaHit true w.playerR ∧
      (processBanana w b).2 = true) ∧
    (r.isInvisible = false →
      (applyBananaHit p r).stunDuration = bananaStunTime ∧
      (applyBananaHit p r).speed = r.speed * (3/10)) ∧
    (r.isInvisible = true → applyBananaHit p r = r) ∧
    ((processBanana w (bpos, RacerId.bot j)).1.bots[j]?
      = w.bots[j]?) ∧
    (owner ≠ RacerId.bot k → hitsBanana bk.pos bpos →
      bananaBotScan owner bpos k (bk :: rest)
        = ({ bk with r := applyBananaHit false bk.r } :: rest, true)) := by
  refine ⟨?_, ?_, ?_, ?_, ?_⟩
  · intro hp
    unfold processBanana
    rw [if_pos hp]
    exact ⟨rfl, rfl⟩
  · intro hv
    unfold applyBananaHit
    rw [if_neg (by simp [hv])]
    exact ⟨rfl, rfl⟩
  · intro hv
    unfold applyBananaHit
    rw [if_pos hv]
  · unfold processBanana
    by_cases hp : hitsBanana w.playerPos bpos
    · rw [if_pos hp]
    · rw [if_neg hp]
      simpa using bananaBotScan_owner_get bpos w.bots 0 j
  · intro hne hhit
    unfold bananaBotScan
    rw [if_pos ⟨hne, hhit⟩]

/-- Player and an unnamed second racer standing on a banana. -/
def speedyRacer : Racer := { dfltRacer with speed := 1 }

/-- Banana world for the C3 witness: the player stands on a banana. -/
def c3WorldB : BnWorld :=
  { playerPos := ⟨0, 0, 0⟩, playerR := speedyRacer, bots := [],
    droppedBananas := [(⟨0, 0, 0⟩, RacerId.player)] }

/-- Witness for C3 amended, on concrete contacts. -/
theorem banana_contact_rules_witness :
    ((processBanana c3WorldB (⟨0, 0, 0⟩, RacerId.player)).1.playerR
        = applyBananaHit true c3WorldB.playerR ∧
     (processBanana c3WorldB (⟨0, 0, 0⟩, RacerId.player)).2 = true) ∧
    ((applyBananaHit true speedyRacer).stunDuration = bananaStunTime ∧
     (applyBananaHit true speedyRacer).speed = speedyRacer.speed * (3/10)) ∧
    (bananaBotScan RacerId.player ⟨0, 0, 0⟩ 0 [⟨⟨0, 0, 0⟩, speedyRacer⟩]
      = ([⟨⟨0, 0, 0⟩, applyBananaHit false speedyRacer⟩], true)) := by
  have T := banana_contact_rules c3WorldB (⟨0, 0, 0⟩, RacerId.player) true
    speedyRacer RacerId.player ⟨0, 0, 0⟩ 0 0 ⟨⟨0, 0, 0⟩, speedyRacer⟩ []
  have hhit : hitsBanana (⟨0, 0, 0⟩ : Vec3) (⟨0, 0, 0⟩ : Vec3) := by
    norm_num [hitsBanana, distSq, Vec3.normSq, Vec3.sub, Vec3.dot]
  exact ⟨T.1 hhit, T.2.1 rfl, T.2.2.2.2 (by decide) hhit⟩

/-! Access lemmas for the item-system world. -/

/-- A racer identity that denotes an actual racer of the world. -/
def validId (w : GameW) : RacerId → Prop
  | RacerId.player => True
  | RacerId.bot i => i < w.bots.length

instance (w : GameW) (id : RacerId) : Decidable (validId w id) := by
  cases id <;> unfold validId <;> infer_instance

lemma getRacer_setRacer_self (w : GameW) (id : RacerId) (r : Racer)
    (h : validId w id) : getRacer (setRacer w id r) id = r := by
  cases id with
  | player => rfl
  | bot i =>
    unfold validId at h
    simp only [getRacer, setRacer]
    rw [List.getD_eq_getElem _ _ (by simpa using h)]
    simp

lemma getRacer_setRacer_other (w : GameW) (id id' : RacerId) (r : Racer)
    (h : id ≠ id') : getRacer (setRacer w id r) id' = getRacer w id' := by
  cases id with
  | player =>
    cases id' with
    | player => exact absurd rfl h
    | bot j => rfl
  | bot i =>
    cases id' with
    | player => rfl
    | bot j =>
      have hij : i ≠ j := fun hc => h (by rw [hc])
      simp only [getRacer, setRacer]
      rw [List.getD_eq_getD_get?, List.getD_eq_getD_get?,
        List.get?_eq_getElem?, List.get?_eq_getElem?,
        List.getElem?_set_ne hij]

/-- Updating one racer record so that the item field is kept does not
change the item observed at that identity, valid or not. -/
lemma getRacer_setRacer_item_keep (w : GameW) (id : RacerId) (r : Racer)
    (hitem : r.item = (getRacer w id).item) :
    (getRacer (setRacer w id r) id).item = (getRacer w id).item := by
  cases id with
  | player => simpa using hitem
  | bot i =>
    by_cases hlt : i < w.bots.length
    · rw [getRacer_setRacer_self w (RacerId.bot i) r hlt]
      exact hitem
    · simp only [getRacer, setRacer]
      rw [List.set_eq_of_length_le (le_of_not_lt hlt)]

lemma getRacer_setItemSlot_self (w : GameW) (id : RacerId)
    (x : Option Item) (h : validId w id) :
    (getRacer (setItemSlot w id x) id).item = x := by
  unfold setItemSlot
  rw [getRacer_setRacer_self _ _ _ h]

lemma getRacer_setItemSlot_other (w : GameW) (id id' : RacerId)
    (x : Option Item) (h : id ≠ id') :
    getRacer (setItemSlot w id x) id' = getRacer w id' := by
  unfold setItemSlot
  exact getRacer_setRacer_other _ _ _ _ h

lemma validId_setItemSlot (w : GameW) (id id' : RacerId) (x : Option Item)
    (h : validId w id') : validId (setItemSlot w id x) id' := by
  cases id <;> cases id' <;>
    simp_all [validId, setItemSlot, setRacer, List.length_set]

/-- Characterization of membership in the eligible-bot victim list. -/
lemma mem_eligibleBots (w : GameW) (excl : Option Nat) (id : RacerId)
    (h : id ∈ eligibleBots w excl) :
    ∃ v, id = RacerId.bot v ∧ v < w.bots.length ∧
      (getRacer w (RacerId.bot v)).item ≠ none ∧
      (getRacer w (RacerId.bot v)).isInvisible = false ∧
      (∀ j, excl = some j → v ≠ j) := by
  unfold eligibleBots at h
  obtain ⟨⟨v, r⟩, hmem, heq⟩ := List.mem_map.mp h
  obtain ⟨henum, hpred⟩ := List.mem_filter.mp hmem
  have hget : w.bots[v]? = some r := by
    simpa using List.mem_enum_iff_getElem?.mp henum
  obtain ⟨hlt, hgetE⟩ := List.getElem?_eq_some.mp hget
  have hr : getRacer w (RacerId.bot v) = r := by
    simp only [getRacer]
    rw [List.getD_eq_getElem _ _ hlt, hgetE]
  simp only [Bool.and_eq_true, Bool.not_eq_true'] at hpred
  refine ⟨v, heq.symm, hlt, ?_, ?_, ?_⟩
  · rw [hr]
    exact Option.ne_none_iff_isSome.mpr hpred.1.2
  · rw [hr]
    exact hpred.2
  · intro j hj hvj
    have := hpred.1.1
    rw [hj] at this
    simp only [bne_iff_ne, ne_eq] at this
    exact this hvj

/-- Any victim candidate differs from the thief, is a real racer, and
holds an item. -/
lemma mem_booTargets (w : GameW) (thief id : RacerId)
    (h : id ∈ booTargets w thief) :
    id ≠ thief ∧ validId w id ∧ (getRacer w id).item ≠ none := by
  cases thief with
  | player =>
    obtain ⟨v, rfl, hlt, hitem, _, _⟩ := mem_eligibleBots w none id h
    exact ⟨fun hc => RacerId.noConfusion hc, hlt, hitem⟩
  | bot j =>
    unfold booTargets at h
    rcases List.mem_append.mp h with h1 | h2
    · by_cases hc : w.playerR.item.isSome && !w.playerR.isInvisible
      · rw [if_pos hc] at h1
        have hid : id = RacerId.player := by simpa using h1
        subst hid
        simp only [Bool.and_eq_true] at hc
        refine ⟨fun hcon => RacerId.noConfusion hcon, trivial, ?_⟩
        exact Option.ne_none_iff_isSome.mpr hc.1
      · rw [if_neg hc] at h1
        exact absurd h1 (List.not_mem_nil _)
    · obtain ⟨v, rfl, hlt, hitem, _, hexcl⟩ :=
        mem_eligibleBots w (some j) id h2
      refine ⟨?_, hlt, hitem⟩
      intro hcon
      have hvj : v = j := by
        injection hcon
      exact hexcl j rfl hvj

/-- The victim the thief PRNG roll selects from the candidate list. -/
def booVictim (roll : ℚ) (w : GameW) (thief : RacerId) : RacerId :=
  (booTargets w thief).getD
    (⌊roll * (booTargets w thief).length⌋).toNat RacerId.player

lemma floor_roll_toNat_lt (roll : ℚ) (n : Nat) (h0 : 0 ≤ roll)
    (h1 : roll < 1) (hn : 0 < n) : (⌊roll * (n : ℚ)⌋).toNat < n := by
  have hnq : (0 : ℚ) < (n : ℚ) := by exact_mod_cast hn
  have h2 : roll * (n : ℚ) < (n : ℚ) := by nlinarith
  have h3 : ⌊roll * (n : ℚ)⌋ < (n : Int) := Int.floor_lt.mpr (by
    exact_mod_cast h2)
  have h4 : 0 ≤ ⌊roll * (n : ℚ)⌋ := Int.floor_nonneg.mpr (by positivity)
  omega

lemma getD_mem_of_lt {α : Type} (l : List α) (i : Nat) (d : α)
    (h : i < l.length) : l.getD i d ∈ l := by
  rw [List.getD_eq_getElem _ _ h]
  exact List.getElem_mem h

lemma booVictim_mem (roll : ℚ) (w : GameW) (thief : RacerId)
    (h0 : 0 ≤ roll) (h1 : roll < 1) (hne : booTargets w thief ≠ []) :
    booVictim roll w thief ∈ booTargets w thief := by
  unfold booVictim
  exact getD_mem_of_lt _ _ _
    (floor_roll_toNat_lt roll _ h0 h1 (List.length_pos.mpr hne))

/-- With no candidate, the steal fails and fills the thief slot with a
mushroom. -/
lemma stealItemWithBoo_empty (roll : ℚ) (w : GameW) (thief : RacerId)
    (hvalid : validId w thief) (hts : booTargets w thief = []) :
    (getRacer (stealItemWithBoo roll w thief).1 thief).item
      = some Item.mushroom ∧
    (stealItemWithBoo roll w thief).2 = false := by
  unfold stealItemWithBoo
  rw [hts]
  simp only [List.length_nil, gt_iff_lt, lt_irrefl, if_false]
  exact ⟨getRacer_setItemSlot_self _ _ _ hvalid, trivial⟩

/-- With a candidate, the selected victim loses the item and the thief
receives it in the same atomic update. -/
lemma stealItemWithBoo_nonempty (roll : ℚ) (w : GameW) (thief : RacerId)
    (h0 : 0 ≤ roll) (h1 : roll < 1) (hvalid : validId w thief)
    (hts : booTargets w thief ≠ []) :
    booVictim roll w thief ≠ thief ∧
    (getRacer w (booVictim roll w thief)).item ≠ none ∧
    (getRacer (stealItemWithBoo roll w thief).1
        (booVictim roll w thief)).item = none ∧
    (getRacer (stealItemWithBoo roll w thief).1 thief).item
      = (getRacer w (booVictim roll w thief)).item ∧
    (stealItemWithBoo roll w thief).2 = true := by
  obtain ⟨hvne, hvvalid, hvitem⟩ :=
    mem_booTargets w thief _ (booVictim_mem roll w thief h0 h1 hts)
  obtain ⟨it, hit⟩ := Option.ne_none_iff_exists'.mp hvitem
  have hlen : 0 < (booTargets w thief).length := List.length_pos.mpr hts
  have hvic :
      (booTargets w thief).getD
        (⌊roll * ((booTargets w thief).length : ℚ)⌋).toNat RacerId.player
        = booVictim roll w thief := rfl
  have hred : stealItemWithBoo roll w thief
      = (setItemSlot (setItemSlot w (booVictim roll w thief) none) thief
          (some it), true) := by
    simp only [stealItemWithBoo]
    rw [if_pos hlen, hvic, hit]
  refine ⟨hvne, hvitem, ?_, ?_, by rw [hred]⟩
  · rw [hred, getRacer_setItemSlot_other _ _ _ _ (Ne.symm hvne)]
    exact getRacer_setItemSlot_self _ _ _ hvvalid
  · rw [hred, getRacer_setItemSlot_self _ _ _
      (validId_setItemSlot _ _ _ _ hvalid), hit]

/-- Using boo moves no item between slots: the thief keeps the boo and
every other racer keeps what they hold. -/
lemma useItem_boo_keeps_items (sorted : List RacerId) (w : GameW)
    (thief id : RacerId) (hboo : (getRacer w thief).item = some Item.boo) :
    (getRacer (useItem sorted w thief) id).item = (getRacer w id).item := by
  have hred : useItem sorted w thief = useBoo w thief := by
    unfold useItem
    rw [hboo]
    rfl
  rw [hred]
  unfold useBoo
  by_cases hid : thief = id
  · subst hid
    exact getRacer_setRacer_item_keep _ _ _ rfl
  · rw [getRacer_setRacer_other _ _ _ _ hid]

/-- At expiry with a pending steal, the expiry step leaves exactly the
item slots produced by stealItemWithBoo on the timer-ticked world. -/
lemma booExpiryStep_player_eq (roll dt : ℚ) (wp : GameW)
    (hinv : wp.playerR.isInvisible = true)
    (hexp : wp.playerR.invisibilityDuration - dt ≤ 0)
    (hatt : wp.playerR.isAttemptingBooSteal = true) :
    (booExpiryStep roll dt wp RacerId.player).playerR.item
      = ((stealItemWithBoo roll
          { wp with playerR := { wp.playerR with invisibilityDuration :=
              wp.playerR.invisibilityDuration - dt } }
          RacerId.player).1).playerR.item ∧
    (booExpiryStep roll dt wp RacerId.player).bots
      = ((stealItemWithBoo roll
          { wp with playerR := { wp.playerR with invisibilityDuration :=
              wp.playerR.invisibilityDuration - dt } }
          RacerId.player).1).bots := by
  constructor <;>
  · simp only [booExpiryStep, getRacer, setRacer]
    rw [if_pos hinv, if_pos hexp, if_pos hatt]
    by_cases hres : (stealItemWithBoo roll
        { wp with playerR := { wp.playerR with invisibilityDuration :=
            wp.playerR.invisibilityDuration - dt } } RacerId.player).2
      = true
    · rw [if_pos hres]
    · rw [if_neg hres]

/-- The invisibility-expiry step of the player resolves the pending boo
steal: with no candidate the player is granted a mushroom, and otherwise
the selected victim loses their item in the same step in which the player
is granted it. -/
lemma booExpiry_resolves (roll dt : ℚ) (wp : GameW)
    (h0 : 0 ≤ roll) (h1 : roll < 1)
    (hinv : wp.playerR.isInvisible = true)
    (hexp : wp.playerR.invisibilityDuration - dt ≤ 0)
    (hatt : wp.playerR.isAttemptingBooSteal = true) :
    (booTargets wp RacerId.player = [] →
      (booExpiryStep roll dt wp RacerId.player).playerR.item
        = some Item.mushroom) ∧
    (booTargets wp RacerId.player ≠ [] →
      (getRacer (booExpiryStep roll dt wp RacerId.player)
          (booVictim roll wp RacerId.player)).item = none ∧
      (booExpiryStep roll dt wp RacerId.player).playerR.item
        = (getRacer wp (booVictim roll wp RacerId.player)).item ∧
      (getRacer wp (booVictim roll wp RacerId.player)).item ≠ none) := by
  obtain ⟨hitem, hbots⟩ := booExpiryStep_player_eq roll dt wp hinv hexp hatt
  constructor
  · intro hts
    have hts1 : booTargets
        { wp with playerR := { wp.playerR with invisibilityDuration :=
            wp.playerR.invisibilityDuration - dt } } RacerId.player
        = [] := hts
    rw [hitem]
    exact (stealItemWithBoo_empty roll _ RacerId.player trivial hts1).1
  · intro hts
    have hts1 : booTargets
        { wp with playerR := { wp.playerR with invisibilityDuration :=
            wp.playerR.invisibilityDuration - dt } } RacerId.player
        ≠ [] := hts
    obtain ⟨hvne, hvitem, hnone, hthief, _⟩ :=
      stealItemWithBoo_nonempty roll _ RacerId.player h0 h1 trivial hts1
    rcases hvform : booVictim roll wp RacerId.player with _ | k
    · have hvne' : (RacerId.player : RacerId) ≠ RacerId.player := by
        have : booVictim roll
            { wp with playerR := { wp.playerR with invisibilityDuration :=
                wp.playerR.invisibilityDuration - dt } } RacerId.player
            = RacerId.player := hvform
        rw [this] at hvne
        exact hvne
      exact absurd rfl hvne'
    · have hvform1 : booVictim roll
          { wp with playerR := { wp.playerR with invisibilityDuration :=
              wp.playerR.invisibilityDuration - dt } } RacerId.player
          = RacerId.bot k := hvform
      rw [hvform1] at hnone hthief hvitem
      refine ⟨?_, ?_, ?_⟩
      · show ((booExpiryStep roll dt wp RacerId.player).bots.getD k
            dfltRacer).item = none
        rw [hbots]
        exact hnone
      · rw [hitem]
        exact hthief
      · exact hvitem

/-- C8 amended.  Boo steal timing as implemented: at the moment boo is
used no item slot changes (the victim keeps their item and the thief
keeps the boo); when the thief invisibility ends, the steal resolves
atomically — the selected victim loses the held item at that moment and
the thief is granted it in the same step — and with no eligible victim
the thief instead receives a mushroom at that moment.  (The claim wrongly
placed the victim loss at the moment of use.) -/
theorem boo_steal_timing
    (sorted : List RacerId) (w wp : GameW) (thief id : RacerId)
    (roll dt : ℚ)
    (h0 : 0 ≤ roll) (h1 : roll < 1) (hvalid : validId w thief)
    (hboo : (getRacer w thief).item = some Item.boo)
    (hinv : wp.playerR.isInvisible = true)
    (hexp : wp.playerR.invisibilityDuration - dt ≤ 0)
    (hatt : wp.playerR.isAttemptingBooSteal = true) :
    ((getRacer (useItem sorted w thief) id).item = (getRacer w id).item) ∧
    ((booTargets w thief = [] →
        (getRacer (stealItemWithBoo roll w thief).1 thief).item
          = some Item.mushroom ∧
        (stealItemWithBoo roll w thief).2 = false) ∧
     (booTargets w thief ≠ [] →
        (getRacer (stealItemWithBoo roll w thief).1
            (booVictim roll w thief)).item = none ∧
        (getRacer (stealItemWithBoo roll w thief).1 thief).item
          = (getRacer w (booVictim roll w thief)).item ∧
        (getRacer w (booVictim roll w thief)).item ≠ none ∧
        (stealItemWithBoo roll w thief).2 = true)) ∧
    ((booTargets wp RacerId.player = [] →
        (booExpiryStep roll dt wp RacerId.player).playerR.item
          = some Item.mushroom) ∧
     (booTargets wp RacerId.player ≠ [] →
        (getRacer (booExpiryStep roll dt wp RacerId.player)
            (booVictim roll wp RacerId.player)).item = none ∧
        (booExpiryStep roll dt wp RacerId.player).playerR.item
          = (getRacer wp (booVictim roll wp RacerId.player)).item ∧
        (getRacer wp (booVictim roll wp RacerId.player)).item ≠ none)) := by
  refine ⟨useItem_boo_keeps_items sorted w thief id hboo,
    ⟨fun hts => stealItemWithBoo_empty roll w thief hvalid hts,
     fun hts => ?_⟩,
    booExpiry_resolves roll dt wp h0 h1 hinv hexp hatt⟩
  obtain ⟨_, h2, h3, h4, h5⟩ :=
    stealItemWithBoo_nonempty roll w thief h0 h1 hvalid hts
  exact ⟨h3, h4, h2, h5⟩

/-- Expiry-frame world for the C8 witness: the player boo timer runs out
this frame with the steal pending and one eligible victim. -/
def c8Expiry : GameW :=
  { playerR := { dfltRacer with
      isInvisible := true, invisibilityDuration := 1/60,
      isAttemptingBooSteal := true, item := some Item.boo },
    bots := [{ dfltRacer with item := some Item.mushroom }],
    droppedBananas := [], droppedFakeItemBoxes := [],
    greenShellCount := 0, redShellTargets := [] }

/-- Witness for C8 amended on concrete worlds. -/
theorem boo_steal_timing_witness :
    (getRacer (useItem [RacerId.player, RacerId.bot 0] c8World
        RacerId.player) (RacerId.bot 0)).item
      = (getRacer c8World (RacerId.bot 0)).item ∧
    ((getRacer (stealItemWithBoo 0 c8World RacerId.player).1
        (booVictim 0 c8World RacerId.player)).item = none ∧
     (getRacer (stealItemWithBoo 0 c8World RacerId.player).1
        RacerId.player).item
       = (getRacer c8World (booVictim 0 c8World RacerId.player)).item ∧
     (getRacer c8World (booVictim 0 c8World RacerId.player)).item ≠ none ∧
     (stealItemWithBoo 0 c8World RacerId.player).2 = true) ∧
    ((getRacer (booExpiryStep 0 (1/60) c8Expiry RacerId.player)
        (booVictim 0 c8Expiry RacerId.player)).item = none ∧
     (booExpiryStep 0 (1/60) c8Expiry RacerId.player).playerR.item
       = (getRacer c8Expiry (booVictim 0 c8Expiry RacerId.player)).item ∧
     (getRacer c8Expiry (booVictim 0 c8Expiry RacerId.player)).item
       ≠ none) := by
  have T := boo_steal_timing [RacerId.player, RacerId.bot 0] c8World
    c8Expiry RacerId.player (RacerId.bot 0) 0 (1/60)
    (by norm_num) (by norm_num) trivial (by decide)
    (by decide) (by norm_num [c8Expiry, dfltRacer]) (by decide)
  exact ⟨T.1, T.2.1.2 (by decide), T.2.2.2 (by decide)⟩

end Karting
